import Mathlib

/-!
Shallow embedding of the leaf-folder classification core of the
`bayen-files-checker` repository (primary variant:
`streamlit_missing_files_detector.py`, class `StreamlitMissingFilesDetector`).

A file on disk is modelled by its name and its byte size; a directory tree by
a rose tree carrying a name, the files directly inside, and the
subdirectories.  The functions `get_file_types`, `check_leaf_folder`,
`generate_summary`, the leaf walk of `scan_folder` and the entry point
`run_scan` are translated line by line from the source.
-/

/-- Python's `str.lower()` over the characters of a string (file names are
ASCII here). -/
def strLower (s : String) : String :=
  ⟨s.data.map Char.toLower⟩

/-- Python's `str.endswith(post)`. -/
def strEndsWith (s post : String) : Bool :=
  post.data.reverse.isPrefixOf s.data.reverse

/-- Python's `str.startswith(pre)`. -/
def strStartsWith (s pre : String) : Bool :=
  pre.data.isPrefixOf s.data

/-- A file of a leaf directory: its name and its size in bytes
(`item.name` and `item.stat().st_size` in the source). -/
structure FileEntry where
  name : String
  size : Nat
deriving DecidableEq, Repr

/-- The five bucket lists built by `get_file_types`
(the Python dict `file_types`). -/
structure FileTypes where
  json_files : List String
  md_files : List String
  log_files : List String
  other_files : List String
  empty_files : List String
deriving DecidableEq, Repr

/-- The initial `file_types` dict: all five buckets empty. -/
def FileTypes.initial : FileTypes :=
  { json_files := [], md_files := [], log_files := [], other_files := [],
    empty_files := [] }

/-- One iteration of the `for item in folder_path.iterdir()` loop of
`StreamlitMissingFilesDetector.get_file_types` (lines 220-253): route a
single file into a bucket.  The size check `file_size == 0` redirects a
recognized file into `empty_files`; a file matching none of the three
extensions is dropped when its name starts with `'.'`. -/
def categorizeFile (ft : FileTypes) (f : FileEntry) : FileTypes :=
  let is_empty := f.size == 0
  if strEndsWith (strLower f.name) ".json" then
    if is_empty then { ft with empty_files := ft.empty_files ++ [f.name] }
    else { ft with json_files := ft.json_files ++ [f.name] }
  else if strEndsWith (strLower f.name) ".md" then
    if is_empty then { ft with empty_files := ft.empty_files ++ [f.name] }
    else { ft with md_files := ft.md_files ++ [f.name] }
  else if strEndsWith (strLower f.name) ".log" then
    if is_empty then { ft with empty_files := ft.empty_files ++ [f.name] }
    else { ft with log_files := ft.log_files ++ [f.name] }
  else
    if !(strStartsWith f.name ".") then
      if is_empty then { ft with empty_files := ft.empty_files ++ [f.name] }
      else { ft with other_files := ft.other_files ++ [f.name] }
    else ft

/-- Embedding of `StreamlitMissingFilesDetector.get_file_types` (lines 209-257): fold the
per-file routing over the directory listing. -/
def get_file_types (files : List FileEntry) : FileTypes :=
  files.foldl categorizeFile FileTypes.initial

/-- The `file_counts` sub-dictionary of a `FolderRecord`. -/
structure FileCounts where
  md_files : Nat
  json_files : Nat
  log_files : Nat
  other_files : Nat
  empty_files : Nat
deriving DecidableEq, Repr

/-- The `folder_info` record built by `check_leaf_folder` (lines 301-312).
In the source `issue` and `severity` are added to the dict just before the
record is appended; here they start as `""` and are overwritten then. -/
structure FolderRecord where
  path : String
  absolute_path : String
  file_counts : FileCounts
  files : FileTypes
  issue : String
  severity : String
deriving DecidableEq, Repr

/-- The four category lists of `self.results` that `check_leaf_folder`
appends to. -/
structure Results where
  empty_folders : List FolderRecord
  json_only_folders : List FolderRecord
  folders_with_empty_files : List FolderRecord
  valid_folders : List FolderRecord
deriving DecidableEq, Repr

/-- Fresh results: the four lists as reset at the start of `run_scan`. -/
def Results.initial : Results :=
  { empty_folders := [], json_only_folders := [], folders_with_empty_files := [],
    valid_folders := [] }

/-- Embedding of `StreamlitMissingFilesDetector.check_leaf_folder` (lines 293-347):
classify one leaf folder and append its record to (at most) one category
list of the results. -/
def check_leaf_folder (res : Results) (folder_path relative_path : String)
    (files : List FileEntry) : Results :=
  let file_types := get_file_types files
  let total_files := file_types.json_files.length + file_types.md_files.length +
    file_types.log_files.length + file_types.other_files.length
  let empty_files_count := file_types.empty_files.length
  let folder_info : FolderRecord :=
    { path := relative_path
      absolute_path := folder_path
      file_counts :=
        { md_files := file_types.md_files.length
          json_files := file_types.json_files.length
          log_files := file_types.log_files.length
          other_files := file_types.other_files.length
          empty_files := empty_files_count }
      files := file_types
      issue := ""
      severity := "" }
  if total_files == 0 && empty_files_count == 0 then
    { res with empty_folders := res.empty_folders ++
        [{ folder_info with issue := "Completely empty folder", severity := "high" }] }
  else if file_types.json_files.length > 0 && file_types.md_files.length == 0 &&
      file_types.log_files.length == 0 && file_types.other_files.length == 0 &&
      empty_files_count == 0 then
    { res with json_only_folders := res.json_only_folders ++
        [{ folder_info with
            issue := "Contains only JSON files, missing main content files (.md)"
            severity := "high" }] }
  else if empty_files_count > 0 then
    if file_types.md_files.length > 0 then
      { res with folders_with_empty_files := res.folders_with_empty_files ++
          [{ folder_info with
              issue := "Folder has content but contains " ++
                toString empty_files_count ++ " empty file(s)"
              severity := "medium" }] }
    else
      { res with folders_with_empty_files := res.folders_with_empty_files ++
          [{ folder_info with
              issue := "No main content files, contains " ++
                toString empty_files_count ++ " empty file(s)"
              severity := "high" }] }
  else if file_types.md_files.length > 0 then
    { res with valid_folders := res.valid_folders ++
        [{ folder_info with issue := "Valid folder with content", severity := "none" }] }
  else res

/-- The `summary` dict produced by `generate_summary`. -/
structure Summary where
  total_empty_folders : Nat
  total_json_only_folders : Nat
  total_folders_with_empty_files : Nat
  total_valid_folders : Nat
  total_problematic_folders : Nat
  total_scanned_folders : Nat
deriving DecidableEq, Repr

/-- Embedding of `StreamlitMissingFilesDetector.generate_summary` (lines 349-367). -/
def generate_summary (res : Results) : Summary :=
  { total_empty_folders := res.empty_folders.length
    total_json_only_folders := res.json_only_folders.length
    total_folders_with_empty_files := res.folders_with_empty_files.length
    total_valid_folders := res.valid_folders.length
    total_problematic_folders := res.empty_folders.length +
      res.json_only_folders.length + res.folders_with_empty_files.length
    total_scanned_folders := res.empty_folders.length +
      res.json_only_folders.length + res.folders_with_empty_files.length +
      res.valid_folders.length }

/-- A directory: its name, the files directly inside it, and its
subdirectories. -/
inductive DirTree where
  | node (name : String) (files : List FileEntry) (subdirs : List DirTree)
deriving Repr

/-- The name of a directory. -/
def DirTree.name : DirTree → String
  | .node n _ _ => n

/-- The files directly inside a directory. -/
def DirTree.files : DirTree → List FileEntry
  | .node _ fs _ => fs

/-- The subdirectories of a directory. -/
def DirTree.subdirs : DirTree → List DirTree
  | .node _ _ ds => ds

/-- A directory that is not filtered out by
`dirs[:] = [d for d in dirs if not d.startswith('.')]`. -/
def visible (d : DirTree) : Bool :=
  !(strStartsWith d.name ".")

mutual

/-- The leaf collection of `StreamlitMissingFilesDetector.scan_folder`
(lines 266-288): `os.walk` with hidden directories pruned in place; a visited
directory whose pruned subdirectory list is empty is recorded as a leaf, in
depth-first order. -/
def leafDirs : DirTree → List DirTree
  | .node n fs ds =>
    if ds.any visible then leafDirsList ds
    else [.node n fs ds]

/-- Walk a list of sibling subdirectories, descending only into the visible
ones (the pruned `dirs` list of `os.walk`). -/
def leafDirsList : List DirTree → List DirTree
  | [] => []
  | d :: ds => (if visible d then leafDirs d else []) ++ leafDirsList ds

end

/-- Embedding of `scan_folder` including its first guard
`if folder_path.name.startswith('.'): return` (line 263). -/
def scan_folder_leaves (root : DirTree) : List DirTree :=
  if strStartsWith root.name "." then [] else leafDirs root

/-- Classify every collected leaf in walk order, threading the results state
(the `for idx, current_dir in enumerate(leaf_dirs)` loop, lines 283-288; the
record's paths are the directory name in this model). -/
def scan_results (root : DirTree) : Results :=
  (scan_folder_leaves root).foldl
    (fun res d => check_leaf_folder res d.name d.name d.files) Results.initial

/-- The status of the path handed to `run_scan`: it may not exist, exist as a
non-directory, or be a readable directory tree. -/
inductive PathStatus where
  | missing
  | notDir
  | dirRoot (t : DirTree)

/-- Embedding of `StreamlitMissingFilesDetector.run_scan` (lines 369-407): reset the
results, report an error and return them untouched when the selected path
does not exist or is not a directory, otherwise scan and return the
populated results.  The `st.error` message is returned alongside. -/
def run_scan (p : PathStatus) (selected_folder : String) : Results × Option String :=
  match p with
  | .missing => (Results.initial, some ("Selected folder does not exist: " ++ selected_folder))
  | .notDir => (Results.initial, some ("Selected path is not a directory: " ++ selected_folder))
  | .dirRoot t => (scan_results t, none)

/-- The five buckets of `get_file_types`, as names. -/
inductive Bucket where
  | json
  | md
  | log
  | other
  | empty
deriving DecidableEq, Repr

/-- Project one bucket list out of a `FileTypes`. -/
def bucketOf (ft : FileTypes) : Bucket → List String
  | .json => ft.json_files
  | .md => ft.md_files
  | .log => ft.log_files
  | .other => ft.other_files
  | .empty => ft.empty_files

/-- Where a single file is routed, following the spec's partition contract:
case-insensitive extension chooses among `.json`/`.md`/`.log`; any other
non-hidden name goes to `other`; a remaining hidden name goes nowhere; and a
zero-byte file among the routed ones lands in `empty` instead. -/
def route (f : FileEntry) : Option Bucket :=
  if strEndsWith (strLower f.name) ".json" then
    some (if f.size == 0 then .empty else .json)
  else if strEndsWith (strLower f.name) ".md" then
    some (if f.size == 0 then .empty else .md)
  else if strEndsWith (strLower f.name) ".log" then
    some (if f.size == 0 then .empty else .log)
  else if strStartsWith f.name "." then
    none
  else
    some (if f.size == 0 then .empty else .other)

/-- The four category lists a record can be appended to. -/
inductive FolderCategory where
  | empty_folders
  | json_only_folders
  | folders_with_empty_files
  | valid_folders
deriving DecidableEq, Repr

/-- The decision table of `check_leaf_folder` in its priority order: empty,
then JSON-only, then has-empty-files, then valid; `none` when no branch
matches and the folder is dropped. -/
def decideCategory (ft : FileTypes) : Option FolderCategory :=
  if ft.json_files.length + ft.md_files.length + ft.log_files.length +
      ft.other_files.length == 0 && ft.empty_files.length == 0 then
    some .empty_folders
  else if ft.json_files.length > 0 && ft.md_files.length == 0 &&
      ft.log_files.length == 0 && ft.other_files.length == 0 &&
      ft.empty_files.length == 0 then
    some .json_only_folders
  else if ft.empty_files.length > 0 then
    some .folders_with_empty_files
  else if ft.md_files.length > 0 then
    some .valid_folders
  else
    none

/-- Append a file name to the given bucket of a `FileTypes`. -/
def appendBucket (ft : FileTypes) (b : Bucket) (n : String) : FileTypes :=
  match b with
  | .json => { ft with json_files := ft.json_files ++ [n] }
  | .md => { ft with md_files := ft.md_files ++ [n] }
  | .log => { ft with log_files := ft.log_files ++ [n] }
  | .other => { ft with other_files := ft.other_files ++ [n] }
  | .empty => { ft with empty_files := ft.empty_files ++ [n] }

/-- The record `check_leaf_folder` appends for a completely empty folder. -/
def emptyFolderRecord (folder_path relative_path : String) : FolderRecord :=
  { path := relative_path
    absolute_path := folder_path
    file_counts :=
      { md_files := 0, json_files := 0, log_files := 0, other_files := 0,
        empty_files := 0 }
    files := FileTypes.initial
    issue := "Completely empty folder"
    severity := "high" }

mutual

/-- All directories the walker can see: the root together with every
directory reached by descending only into visible (non-hidden)
subdirectories. -/
def reach : DirTree → List DirTree
  | .node n fs ds => .node n fs ds :: reachList ds

/-- The visible-descent closure of a list of sibling directories. -/
def reachList : List DirTree → List DirTree
  | [] => []
  | d :: ds => (if visible d then reach d else []) ++ reachList ds

end

/-- The spec's leaf test: zero subdirectory children after excluding hidden
entries; a directory whose only subdirectories are hidden counts as a
leaf. -/
def isLeaf (d : DirTree) : Bool :=
  !(d.subdirs.any visible)

theorem categorizeFile_eq_route (ft : FileTypes) (f : FileEntry) :
    categorizeFile ft f =
      match route f with
      | none => ft
      | some b => appendBucket ft b f.name := by
  simp only [categorizeFile, route]
  split_ifs <;> simp_all [appendBucket]

theorem bucketOf_appendBucket (ft : FileTypes) (b b' : Bucket) (n : String) :
    bucketOf (appendBucket ft b n) b' =
      if b' = b then bucketOf ft b' ++ [n] else bucketOf ft b' := by
  cases b <;> cases b' <;> simp [appendBucket, bucketOf]

theorem bucketOf_initial (b : Bucket) : bucketOf FileTypes.initial b = [] := by
  cases b <;> rfl

theorem foldl_categorize_bucket (files : List FileEntry) :
    ∀ (acc : FileTypes) (b : Bucket),
      bucketOf (files.foldl categorizeFile acc) b =
        bucketOf acc b ++
          (files.filter (fun f => route f == some b)).map FileEntry.name := by
  induction files with
  | nil => intro acc b; simp
  | cons f fs ih =>
    intro acc b
    simp only [List.foldl_cons, List.filter_cons]
    rw [categorizeFile_eq_route]
    cases hr : route f with
    | none => simp [hr, ih]
    | some b0 =>
      by_cases hb : b0 = b
      · subst hb
        simp [hr, ih, bucketOf_appendBucket]
      · have : (some b0 == some b) = false := by
          simp [hb]
        simp [hr, ih, bucketOf_appendBucket, this, Ne.symm hb]

theorem bucket_filter (files : List FileEntry) (b : Bucket) :
    bucketOf (get_file_types files) b =
      (files.filter (fun f => route f == some b)).map FileEntry.name := by
  unfold get_file_types
  rw [foldl_categorize_bucket]
  simp [bucketOf_initial]

theorem check_leaf_folder_initial (res : Results) (fp rp : String)
    (files : List FileEntry) (h : get_file_types files = FileTypes.initial) :
    check_leaf_folder res fp rp files =
      { res with empty_folders := res.empty_folders ++ [emptyFolderRecord fp rp] } := by
  simp [check_leaf_folder, h, FileTypes.initial, emptyFolderRecord]

/-- C4: for every leaf directory whose five buckets are all empty (zero files
total, including zero empty-bucket entries), `check_leaf_folder` appends its
record to `empty_folders` with severity `high`, leaving the other lists
untouched. -/
theorem claim_C4_empty_folder (res : Results) (fp rp : String)
    (files : List FileEntry) (h : get_file_types files = FileTypes.initial) :
    ∃ r : FolderRecord,
      check_leaf_folder res fp rp files =
        { res with empty_folders := res.empty_folders ++ [r] } ∧
      r.severity = "high" := by
  exact ⟨emptyFolderRecord fp rp, check_leaf_folder_initial res fp rp files h, rfl⟩

/-- Witness for C4 at the empty listing. -/
theorem claim_C4_empty_folder_witness :
    get_file_types [] = FileTypes.initial ∧
    ∃ r : FolderRecord,
      check_leaf_folder Results.initial "a" "p" [] =
        { Results.initial with
            empty_folders := Results.initial.empty_folders ++ [r] } ∧
      r.severity = "high" :=
  ⟨rfl, claim_C4_empty_folder Results.initial "a" "p" [] rfl⟩

/-- C5: for every leaf directory whose JSON bucket is non-empty while the
markdown, log, other and empty buckets are all empty, `check_leaf_folder`
appends its record to `json_only_folders` with severity `high`. -/
theorem claim_C5_json_only (res : Results) (fp rp : String)
    (files : List FileEntry)
    (hj : (get_file_types files).json_files ≠ [])
    (hm : (get_file_types files).md_files = [])
    (hl : (get_file_types files).log_files = [])
    (ho : (get_file_types files).other_files = [])
    (he : (get_file_types files).empty_files = []) :
    ∃ r : FolderRecord,
      check_leaf_folder res fp rp files =
        { res with json_only_folders := res.json_only_folders ++ [r] } ∧
      r.severity = "high" := by
  have hn : (get_file_types files).json_files.length ≠ 0 := by
    simpa [List.length_eq_zero] using hj
  simp only [check_leaf_folder, hm, hl, ho, he, List.length_nil]
  have h1 : ((get_file_types files).json_files.length + 0 + 0 + 0 == 0) = false := by
    simp [hn]
  have h2 : (0 < (get_file_types files).json_files.length) := Nat.pos_of_ne_zero hn
  simp [h1, h2, hj]

/-- Witness for C5 at a single non-empty `meta.json`. -/
theorem claim_C5_json_only_witness :
    ((get_file_types [{ name := "meta.json", size := 5 }]).json_files ≠ [] ∧
     (get_file_types [{ name := "meta.json", size := 5 }]).md_files = [] ∧
     (get_file_types [{ name := "meta.json", size := 5 }]).log_files = [] ∧
     (get_file_types [{ name := "meta.json", size := 5 }]).other_files = [] ∧
     (get_file_types [{ name := "meta.json", size := 5 }]).empty_files = []) ∧
    ∃ r : FolderRecord,
      check_leaf_folder Results.initial "a" "C" [{ name := "meta.json", size := 5 }] =
        { Results.initial with
            json_only_folders := Results.initial.json_only_folders ++ [r] } ∧
      r.severity = "high" :=
  ⟨⟨by decide, rfl, rfl, rfl, rfl⟩,
    claim_C5_json_only Results.initial "a" "C" [{ name := "meta.json", size := 5 }]
      (by decide) rfl rfl rfl rfl⟩

/-- C3: for every leaf directory whose empty bucket is non-empty (which also
rules the empty and JSON-only branches out), `check_leaf_folder` appends its
record to `folders_with_empty_files`; the severity is `medium` when the
markdown bucket is non-empty (a non-empty `.md` file is present) and `high`
otherwise. -/
theorem claim_C3_empty_files (res : Results) (fp rp : String)
    (files : List FileEntry)
    (he : (get_file_types files).empty_files ≠ []) :
    ∃ r : FolderRecord,
      check_leaf_folder res fp rp files =
        { res with folders_with_empty_files :=
            res.folders_with_empty_files ++ [r] } ∧
      r.severity =
        (if (get_file_types files).md_files.length > 0 then "medium" else "high") := by
  have hn : (get_file_types files).empty_files.length ≠ 0 := by
    simpa [List.length_eq_zero] using he
  have h2 : (0 < (get_file_types files).empty_files.length) := Nat.pos_of_ne_zero hn
  simp only [check_leaf_folder]
  by_cases hm : (get_file_types files).md_files.length > 0
  · simp [he, h2, hm]
  · simp [he, h2, hm]

/-- Witness for C3 at a single zero-byte `a.txt`. -/
theorem claim_C3_empty_files_witness :
    (get_file_types [{ name := "a.txt", size := 0 }]).empty_files ≠ [] ∧
    ∃ r : FolderRecord,
      check_leaf_folder Results.initial "a" "p" [{ name := "a.txt", size := 0 }] =
        { Results.initial with folders_with_empty_files :=
            Results.initial.folders_with_empty_files ++ [r] } ∧
      r.severity =
        (if (get_file_types [{ name := "a.txt", size := 0 }]).md_files.length > 0
          then "medium" else "high") :=
  ⟨by decide,
    claim_C3_empty_files Results.initial "a" "p" [{ name := "a.txt", size := 0 }]
      (by decide)⟩

/-- Counterexample to C2 as stated: the directory `D` of the spec's own
scenario, holding a non-empty `notes.md` and a zero-byte `draft.md`,
contains a non-empty `.md` file yet is not assigned to `valid_folders`; it
lands in `folders_with_empty_files` instead. -/
theorem claim_C2_counterexample :
    strEndsWith (strLower "notes.md") ".md" = true ∧ (10 : Nat) ≠ 0 ∧
    (check_leaf_folder Results.initial "a" "D"
        [{ name := "notes.md", size := 10 }, { name := "draft.md", size := 0 }]).valid_folders
      = [] ∧
    (check_leaf_folder Results.initial "a" "D"
        [{ name := "notes.md", size := 10 }, { name := "draft.md", size := 0 }]).folders_with_empty_files.length
      = 1 :=
  ⟨rfl, by decide, rfl, rfl⟩

/-- C2 amended: for every leaf directory whose markdown bucket is non-empty
(at least one non-empty `.md` file) and whose empty bucket is empty (no
zero-byte file was routed), `check_leaf_folder` appends its record to
`valid_folders` with severity `none`, regardless of the other buckets. -/
theorem claim_C2_amended_valid (res : Results) (fp rp : String)
    (files : List FileEntry)
    (hm : (get_file_types files).md_files ≠ [])
    (he : (get_file_types files).empty_files = []) :
    ∃ r : FolderRecord,
      check_leaf_folder res fp rp files =
        { res with valid_folders := res.valid_folders ++ [r] } ∧
      r.severity = "none" := by
  have hn : (get_file_types files).md_files.length ≠ 0 := by
    simpa [List.length_eq_zero] using hm
  have h2 : (0 < (get_file_types files).md_files.length) := Nat.pos_of_ne_zero hn
  have h1 : ((get_file_types files).json_files.length +
      (get_file_types files).md_files.length +
      (get_file_types files).log_files.length +
      (get_file_types files).other_files.length == 0) = false := by
    simp only [beq_eq_false_iff_ne, ne_eq]
    omega
  simp only [check_leaf_folder, he, List.length_nil]
  simp [h1, h2, hm, hn]

/-- Witness for the amended C2 at a non-empty `notes.md` beside a non-empty
`meta.json` and a non-empty `run.log`. -/
theorem claim_C2_amended_valid_witness :
    ((get_file_types [{ name := "notes.md", size := 10 },
        { name := "meta.json", size := 5 }, { name := "run.log", size := 2 }]).md_files ≠ [] ∧
     (get_file_types [{ name := "notes.md", size := 10 },
        { name := "meta.json", size := 5 }, { name := "run.log", size := 2 }]).empty_files = []) ∧
    ∃ r : FolderRecord,
      check_leaf_folder Results.initial "a" "B"
          [{ name := "notes.md", size := 10 }, { name := "meta.json", size := 5 },
            { name := "run.log", size := 2 }] =
        { Results.initial with
            valid_folders := Results.initial.valid_folders ++ [r] } ∧
      r.severity = "none" :=
  ⟨⟨by decide, rfl⟩,
    claim_C2_amended_valid Results.initial "a" "B"
      [{ name := "notes.md", size := 10 }, { name := "meta.json", size := 5 },
        { name := "run.log", size := 2 }] (by decide) rfl⟩

/-- C10: for every leaf directory whose files all have hidden names (leading
`'.'`) matching none of the three recognized extensions, every bucket —
including the empty bucket, even for zero-byte files — stays empty, so the
folder is classified as completely empty with severity `high`. -/
theorem claim_C10_hidden_files (res : Results) (fp rp : String)
    (files : List FileEntry)
    (h : ∀ f ∈ files, strStartsWith f.name "." = true ∧
      strEndsWith (strLower f.name) ".json" = false ∧
      strEndsWith (strLower f.name) ".md" = false ∧
      strEndsWith (strLower f.name) ".log" = false) :
    ∃ r : FolderRecord,
      check_leaf_folder res fp rp files =
        { res with empty_folders := res.empty_folders ++ [r] } ∧
      r.severity = "high" := by
  have hroute : ∀ f ∈ files, route f = none := by
    intro f hf
    obtain ⟨h1, h2, h3, h4⟩ := h f hf
    simp [route, h1, h2, h3, h4]
  have hb : ∀ b, bucketOf (get_file_types files) b = [] := by
    intro b
    rw [bucket_filter]
    have hfil : files.filter (fun f => route f == some b) = [] := by
      rw [List.filter_eq_nil_iff]
      intro f hf
      simp [hroute f hf]
    simp [hfil]
  have hft : get_file_types files = FileTypes.initial := by
    have h1 := hb .json
    have h2 := hb .md
    have h3 := hb .log
    have h4 := hb .other
    have h5 := hb .empty
    simp only [bucketOf] at h1 h2 h3 h4 h5
    have heta : get_file_types files =
        ⟨(get_file_types files).json_files, (get_file_types files).md_files,
          (get_file_types files).log_files, (get_file_types files).other_files,
          (get_file_types files).empty_files⟩ := rfl
    rw [heta, h1, h2, h3, h4, h5]
    rfl
  exact ⟨emptyFolderRecord fp rp, check_leaf_folder_initial res fp rp files hft, rfl⟩

/-- Witness for C10 at a directory holding only a zero-byte `.DS_Store`. -/
theorem claim_C10_hidden_files_witness :
    (∀ f ∈ [({ name := ".DS_Store", size := 0 } : FileEntry)],
      strStartsWith f.name "." = true ∧
      strEndsWith (strLower f.name) ".json" = false ∧
      strEndsWith (strLower f.name) ".md" = false ∧
      strEndsWith (strLower f.name) ".log" = false) ∧
    ∃ r : FolderRecord,
      check_leaf_folder Results.initial "a" "p"
          [{ name := ".DS_Store", size := 0 }] =
        { Results.initial with
            empty_folders := Results.initial.empty_folders ++ [r] } ∧
      r.severity = "high" :=
  ⟨by decide,
    claim_C10_hidden_files Results.initial "a" "p"
      [{ name := ".DS_Store", size := 0 }] (by decide)⟩

/-- Counterexample to C6 as stated: the zero-byte hidden file `.x` matches
no recognized extension, so it is routed into no bucket at all — in
particular not into the empty bucket, although its byte-length is zero. -/
theorem claim_C6_counterexample :
    ({ name := ".x", size := 0 } : FileEntry).size = 0 ∧
    get_file_types [{ name := ".x", size := 0 }] = FileTypes.initial :=
  ⟨rfl, rfl⟩

/-- C6 amended: every bucket of `get_file_types` is exactly the files that
`route` sends there, in listing order: case-insensitive extension picks the
`.json`/`.md`/`.log` bucket, any other non-hidden name goes to `other`, a
zero-byte file among these goes to `empty` instead (size takes precedence
over extension), and a hidden name with no recognized extension goes into no
bucket at all. -/
theorem claim_C6_amended_partition (files : List FileEntry) (b : Bucket) :
    bucketOf (get_file_types files) b =
      (files.filter (fun f => route f == some b)).map FileEntry.name :=
  bucket_filter files b

/-- Counterexample to C1 as stated: a leaf folder holding only a non-empty
`a.log` matches none of the four branches of `check_leaf_folder`, so its
record is appended to none of the four category lists — the folder is left
out of all of them. -/
theorem claim_C1_counterexample :
    check_leaf_folder Results.initial "a" "p" [{ name := "a.log", size := 3 }] =
      Results.initial ∧
    Results.initial.empty_folders.length + Results.initial.json_only_folders.length +
      Results.initial.folders_with_empty_files.length +
      Results.initial.valid_folders.length = 0 :=
  ⟨rfl, rfl⟩

set_option maxHeartbeats 2000000 in
/-- C1 amended: `check_leaf_folder` appends one record to at most one of the
four category lists, the list picked by the priority-ordered decision table
(empty, then JSON-only, then has-empty-files, then valid); when no branch
matches (no markdown, not JSON-only, no empty files, not empty) the folder
is appended to none of the lists. -/
theorem claim_C1_amended_exclusive (res : Results) (fp rp : String)
    (files : List FileEntry) :
    (check_leaf_folder res fp rp files).empty_folders.length =
        res.empty_folders.length +
          (if decideCategory (get_file_types files) =
              some FolderCategory.empty_folders then 1 else 0) ∧
    (check_leaf_folder res fp rp files).json_only_folders.length =
        res.json_only_folders.length +
          (if decideCategory (get_file_types files) =
              some FolderCategory.json_only_folders then 1 else 0) ∧
    (check_leaf_folder res fp rp files).folders_with_empty_files.length =
        res.folders_with_empty_files.length +
          (if decideCategory (get_file_types files) =
              some FolderCategory.folders_with_empty_files then 1 else 0) ∧
    (check_leaf_folder res fp rp files).valid_folders.length =
        res.valid_folders.length +
          (if decideCategory (get_file_types files) =
              some FolderCategory.valid_folders then 1 else 0) := by
  simp only [check_leaf_folder, decideCategory]
  generalize get_file_types files = ft
  split_ifs <;> simp_all

/-- C7: for every scan outcome, the summary generated from the four category
lists satisfies both equations: `total_scanned_folders` is the sum of all
four list lengths and `total_problematic_folders` the sum of the three
non-valid list lengths. -/
theorem claim_C7_summary_totals (p : PathStatus) (s : String) :
    (generate_summary (run_scan p s).1).total_scanned_folders =
        (run_scan p s).1.empty_folders.length +
        (run_scan p s).1.json_only_folders.length +
        (run_scan p s).1.folders_with_empty_files.length +
        (run_scan p s).1.valid_folders.length ∧
    (generate_summary (run_scan p s).1).total_problematic_folders =
        (run_scan p s).1.empty_folders.length +
        (run_scan p s).1.json_only_folders.length +
        (run_scan p s).1.folders_with_empty_files.length :=
  ⟨rfl, rfl⟩

/-- C9: when the selected root path does not exist, or exists but is not a
directory, `run_scan` reports an error message and returns the reset
results, whose four category lists are all empty. -/
theorem claim_C9_bad_root (p : PathStatus) (s : String)
    (h : p = PathStatus.missing ∨ p = PathStatus.notDir) :
    (run_scan p s).1 = Results.initial ∧ ((run_scan p s).2).isSome = true := by
  rcases h with h | h <;> subst h <;> exact ⟨rfl, rfl⟩

/-- Witness for C9 at a missing root. -/
theorem claim_C9_bad_root_witness :
    (PathStatus.missing = PathStatus.missing ∨
      PathStatus.missing = PathStatus.notDir) ∧
    (run_scan PathStatus.missing "textData").1 = Results.initial ∧
    ((run_scan PathStatus.missing "textData").2).isSome = true :=
  ⟨Or.inl rfl, claim_C9_bad_root PathStatus.missing "textData" (Or.inl rfl)⟩

theorem reachList_nil (l : List DirTree) (h : l.any visible = false) :
    reachList l = [] := by
  induction l with
  | nil => rfl
  | cons d ds ih =>
    simp only [List.any_cons, Bool.or_eq_false_iff] at h
    simp [reachList, h.1, ih h.2]

mutual

theorem leafDirs_eq_reach (d : DirTree) :
    leafDirs d = (reach d).filter isLeaf := by
  cases d with
  | node n fs ds =>
    by_cases h : ds.any visible
    · simp [leafDirs, reach, isLeaf, DirTree.subdirs, h, leafDirsList_eq_reach ds]
    · simp [leafDirs, reach, isLeaf, DirTree.subdirs, h,
        reachList_nil ds (by simpa using h)]

theorem leafDirsList_eq_reach (l : List DirTree) :
    leafDirsList l = (reachList l).filter isLeaf := by
  cases l with
  | nil => rfl
  | cons d ds =>
    by_cases h : visible d
    · simp [leafDirsList, reachList, h, leafDirs_eq_reach d, leafDirsList_eq_reach ds]
    · simp [leafDirsList, reachList, h, leafDirsList_eq_reach ds]

end

/-- C8: for every non-hidden root, the directories the walker collects for
classification are exactly the leaf directories: those reachable by
descending only into visible subdirectories whose own visible-subdirectory
count is zero — in particular a directory whose only subdirectories are
hidden counts as a leaf. -/
theorem claim_C8_walker_leaves (root : DirTree)
    (h : strStartsWith root.name "." = false) :
    scan_folder_leaves root = (reach root).filter isLeaf := by
  simp [scan_folder_leaves, h, leafDirs_eq_reach root]

/-- Witness for C8 on a root with a hidden leaf `.git` and a directory `a`
whose only subdirectory is hidden. -/
theorem claim_C8_walker_leaves_witness :
    strStartsWith (DirTree.node "r" []
        [DirTree.node ".git" [] [],
          DirTree.node "a" [] [DirTree.node ".h" [] []]]).name "." = false ∧
    scan_folder_leaves (DirTree.node "r" []
        [DirTree.node ".git" [] [],
          DirTree.node "a" [] [DirTree.node ".h" [] []]]) =
      (reach (DirTree.node "r" []
        [DirTree.node ".git" [] [],
          DirTree.node "a" [] [DirTree.node ".h" [] []]])).filter isLeaf :=
  ⟨rfl,
    claim_C8_walker_leaves (DirTree.node "r" []
      [DirTree.node ".git" [] [],
        DirTree.node "a" [] [DirTree.node ".h" [] []]]) rfl⟩
